import Mathlib

/-!
# Route resolution of `ContentContainer`

A shallow embedding of `src/webapp/src/app/routing/ContentContainer.jsx`.

The component builds the constant `routes`:

    [...APP_PAGES, ...additionalPages]
      .filter((item) => item.TYPE === APP_DRAWER_ITEM_TYPES.link)
      .map((item) => <RouteElement key=.. path=.. exact component=.. .../>)

and hands it to a `Switch`.  The flag `oauthEnabled` is read from the global
state container and `APP_PAGES` is an imported module constant: `routes` takes
both as arguments, and `render` models the whole component over the ambient
state it reads them from.  Arrays are lists, a page item is a record whose
properties other than `NAME` and `TYPE` may be absent (`undefined` is `none`),
and a JSX route element is a record of its element type, its key and its
properties.  Components and property bags are never inspected by the
component, so their types `C` and `P` are parameters.
-/

set_option autoImplicit false

namespace ContentContainer

/-- Modelled from the spec: the table `APP_DRAWER_ITEM_TYPES` is imported from
`utils/app-pages`, which is not part of the sources at hand.  The data model
gives the type of a page as an "enum over at least {link, other}"; every kind
that is not `link` is an `other`, told apart by its tag. -/
inductive APP_DRAWER_ITEM_TYPES where
  | link : APP_DRAWER_ITEM_TYPES
  | other (tag : String) : APP_DRAWER_ITEM_TYPES
  deriving DecidableEq, Repr

/-- One entry of `APP_PAGES` or of `additionalPages`: the properties the
component reads.  `PATH`, `REQUIRE_LOGIN`, `COMPONENT` and `PROPS` may be
missing from the object, in which case reading them yields `undefined`. -/
structure PageItem (C P : Type) where
  NAME : String
  TYPE : APP_DRAWER_ITEM_TYPES
  PATH : Option String := none
  REQUIRE_LOGIN : Option Bool := none
  COMPONENT : Option C := none
  PROPS : Option P := none
  deriving DecidableEq, Repr

/-- The two route components the conditional of the source chooses between. -/
inductive RouteElement where
  | PrivateRoute : RouteElement
  | DefaultLoginRoute : RouteElement
  deriving DecidableEq, Repr

/-- The JSX element built for one page: its element type, its key and the
properties passed to it. -/
structure RouteBinding (C P : Type) where
  element : RouteElement
  key : String
  path : Option String
  exact : Bool
  component : Option C
  isAuthenticated : Bool
  useDefaultLogin : Bool
  componentProps : Option P
  deriving DecidableEq, Repr

variable {C P : Type}

/-- Truthiness of a property that holds a boolean or is absent, as the
conditional operator of the source sees it: `undefined` is falsy. -/
def truthy : Option Bool → Bool
  | some b => b
  | none => false

/-- The predicate of `.filter`: `item.TYPE === APP_DRAWER_ITEM_TYPES.link`. -/
def isLink (item : PageItem C P) : Bool :=
  decide (item.TYPE = APP_DRAWER_ITEM_TYPES.link)

/-- The callback of `.map`: the route element built for one page item. -/
def toRoute (isAuthenticated oauthEnabled : Bool) (item : PageItem C P) :
    RouteBinding C P :=
  { element :=
      if truthy item.REQUIRE_LOGIN then RouteElement.PrivateRoute
      else RouteElement.DefaultLoginRoute
    key := item.NAME
    path := item.PATH
    exact := true
    component := item.COMPONENT
    isAuthenticated := isAuthenticated
    useDefaultLogin := !oauthEnabled
    componentProps := item.PROPS }

/-- The page items that take part in routing: the concatenation of the static
pages and the additional pages, filtered down to the link items. -/
def linkItems (APP_PAGES additionalPages : List (PageItem C P)) :
    List (PageItem C P) :=
  (APP_PAGES ++ additionalPages).filter isLink

/-- The constant `routes` of the component (the `resolve` operation of the
specification).  `APP_PAGES` is the imported static page list and
`oauthEnabled` the flag read from the global state container; both are
arguments here. -/
def routes (APP_PAGES additionalPages : List (PageItem C P))
    (isAuthenticated oauthEnabled : Bool) : List (RouteBinding C P) :=
  ((APP_PAGES ++ additionalPages).filter isLink).map
    (toRoute isAuthenticated oauthEnabled)

/-- Modelled from the spec: the dispatcher (`Switch` of the routing library) is
an external collaborator whose code is not part of the sources.  Following the
words "matches the current request path against each binding's `path` in
order and renders the first match, or a not-found fallback if none match",
with paths compared for exact equality; `none` is the fallback. -/
def Switch (requestPath : String) (children : List (RouteBinding C P)) :
    Option (RouteBinding C P) :=
  children.find? (fun b => b.path == some requestPath)

/-! ## The example of the specification -/

/-- The static pages of the worked example: `Home`, `Admin` and a divider. -/
def examplePages : List (PageItem String Unit) :=
  [ { NAME := "Home", TYPE := APP_DRAWER_ITEM_TYPES.link, PATH := some "/",
      REQUIRE_LOGIN := some false, COMPONENT := some "Home" },
    { NAME := "Admin", TYPE := APP_DRAWER_ITEM_TYPES.link, PATH := some "/admin",
      REQUIRE_LOGIN := some true, COMPONENT := some "Admin" },
    { NAME := "Divider", TYPE := APP_DRAWER_ITEM_TYPES.other "divider" } ]

/-- An additional page that reuses the name and the path of the static `Home`
page but binds another component. -/
def shadowHome : PageItem String Unit :=
  { NAME := "Home", TYPE := APP_DRAWER_ITEM_TYPES.link, PATH := some "/",
    REQUIRE_LOGIN := some true, COMPONENT := some "OtherHome" }

/-- A non-link page that carries the path of the `Home` page. -/
def bannerPage : PageItem String Unit :=
  { NAME := "Banner", TYPE := APP_DRAWER_ITEM_TYPES.other "divider",
    PATH := some "/" }

/-- Static pages in which a non-link item with path "/" stands before the link
item with the same path. -/
def collidingPages : List (PageItem String Unit) :=
  bannerPage :: examplePages

/-! ## The component as a whole -/

/-- Modelled from the spec: the value returned by
`GlobalStateContainer.useContainer()`.  The store module (`../store`) is not
part of the sources; the specification calls it a shared state container that
holds the process-wide flag `oauthEnabled`.  The component destructures that
one property; whatever else the container holds is `rest`, of a type `G` left
open. -/
structure GlobalState (G : Type) where
  oauthEnabled : Bool
  rest : G
  deriving DecidableEq, Repr

/-- The `props` of the component, with the defaults of `defaultProps`. -/
structure Props (C P : Type) where
  additionalPages : List (PageItem C P) := []
  className : String := ""
  isAuthenticated : Bool
  deriving DecidableEq, Repr

/-- Everything outside its `props` that a render can read: the imported module
constant `APP_PAGES` and the global state container. -/
structure Ambient (C P G : Type) where
  APP_PAGES : List (PageItem C P)
  container : GlobalState G
  deriving DecidableEq, Repr

/-- The element the component returns: a `div` with its class name, holding the
(constant) `Toolbar` and the `Switch` with its children. -/
structure Rendered (C P : Type) where
  className : String
  switchChildren : List (RouteBinding C P)
  deriving DecidableEq, Repr

/-- The function `ContentContainer(props)` as a step on the ambient state: it
reads `oauthEnabled` from the container and `additionalPages`, `className` and
`isAuthenticated` from `props`, builds `routes` and returns the wrapper
element.  The body assigns to nothing outside its locals and calls no setter
of the container (`filter`, `map` and the spread build new arrays), so the
ambient state is handed back as it was received. -/
def render {G : Type} (w : Ambient C P G) (props : Props C P) :
    Rendered C P × Ambient C P G :=
  let oauthEnabled := w.container.oauthEnabled
  let additionalPages := props.additionalPages
  let className := props.className
  let isAuthenticated := props.isAuthenticated
  let routes :=
    ((w.APP_PAGES ++ additionalPages).filter isLink).map
      (toRoute isAuthenticated oauthEnabled)
  ({ className := className ++ " root", switchChildren := routes }, w)

/-- An ambient state for the worked example: OAuth enabled. -/
def exampleAmbient : Ambient String Unit String :=
  { APP_PAGES := examplePages
    container := { oauthEnabled := true, rest := "session-1" } }

/-- The same pages and the same flag, next to other container content. -/
def otherAmbient : Ambient String Unit String :=
  { APP_PAGES := examplePages
    container := { oauthEnabled := true, rest := "session-2" } }

/-! ## Shared lemmas -/

theorem routes_eq_map (S A : List (PageItem C P)) (auth oauth : Bool) :
    routes S A auth oauth = (linkItems S A).map (toRoute auth oauth) := rfl

theorem length_routes (S A : List (PageItem C P)) (auth oauth : Bool) :
    (routes S A auth oauth).length = (linkItems S A).length := by
  simp [routes, linkItems]

theorem getElem?_routes (S A : List (PageItem C P)) (auth oauth : Bool) (i : Nat) :
    (routes S A auth oauth)[i]? = ((linkItems S A)[i]?).map (toRoute auth oauth) := by
  rw [routes_eq_map]
  exact List.getElem?_map _ _ _

theorem isLink_iff (item : PageItem C P) :
    isLink item = true ↔ item.TYPE = APP_DRAWER_ITEM_TYPES.link := by
  simp [isLink]

theorem keys_routes (S A : List (PageItem C P)) (auth oauth : Bool) :
    (routes S A auth oauth).map (fun b => b.key)
      = (linkItems S A).map (fun d => d.NAME) := by
  simp [routes, linkItems, toRoute, Function.comp_def]

/-! ## Claims -/

/-- C1: the keys of the resolved routes are exactly the names of the link items
of the static pages followed by the additional pages, in that order: the names
of the static link items come first, then those of the additional link items,
each group in its original order. -/
theorem routes_keys_order (S A : List (PageItem C P)) (auth oauth : Bool) :
    (routes S A auth oauth).map (fun b => b.key)
        = ((S ++ A).filter (fun d => decide (d.TYPE = APP_DRAWER_ITEM_TYPES.link))).map
            (fun d => d.NAME)
    ∧ (routes S A auth oauth).map (fun b => b.key)
        = ((S.filter (fun d => decide (d.TYPE = APP_DRAWER_ITEM_TYPES.link))).map
            (fun d => d.NAME))
          ++ ((A.filter (fun d => decide (d.TYPE = APP_DRAWER_ITEM_TYPES.link))).map
            (fun d => d.NAME)) := by
  have h := keys_routes S A auth oauth
  refine ⟨h, ?_⟩
  rw [h]
  simp [linkItems, isLink, List.filter_append]
  rfl

/-- C2: every resolved route is the route element of some page item of the
static pages followed by the additional pages whose type is `link`, and its
key, path, component and property bag are those of that item; no route stems
from an item of another type. -/
theorem routes_only_from_links (S A : List (PageItem C P)) (auth oauth : Bool)
    (b : RouteBinding C P) (hb : b ∈ routes S A auth oauth) :
    ∃ d ∈ S ++ A, d.TYPE = APP_DRAWER_ITEM_TYPES.link ∧ b = toRoute auth oauth d
      ∧ b.key = d.NAME ∧ b.path = d.PATH ∧ b.component = d.COMPONENT
      ∧ b.componentProps = d.PROPS := by
  simp only [routes, List.mem_map, List.mem_filter] at hb
  obtain ⟨d, ⟨hd, hl⟩, rfl⟩ := hb
  exact ⟨d, hd, (isLink_iff d).1 hl, rfl, rfl, rfl, rfl, rfl⟩

theorem routes_only_from_links_witness :
    toRoute false true shadowHome ∈ routes examplePages [shadowHome] false true
    ∧ ∃ d ∈ examplePages ++ [shadowHome],
        d.TYPE = APP_DRAWER_ITEM_TYPES.link
        ∧ toRoute false true shadowHome = toRoute false true d
        ∧ (toRoute false true shadowHome).key = d.NAME
        ∧ (toRoute false true shadowHome).path = d.PATH
        ∧ (toRoute false true shadowHome).component = d.COMPONENT
        ∧ (toRoute false true shadowHome).componentProps = d.PROPS :=
  ⟨by decide,
   routes_only_from_links examplePages [shadowHome] false true
     (toRoute false true shadowHome) (by decide)⟩

/-- C3: the number of resolved routes is at most the number of static pages
plus the number of additional pages, and the two numbers are equal exactly when
every static page and every additional page has type `link`. -/
theorem routes_length_le (S A : List (PageItem C P)) (auth oauth : Bool) :
    (routes S A auth oauth).length ≤ S.length + A.length
    ∧ ((routes S A auth oauth).length = S.length + A.length
        ↔ (∀ d ∈ S, d.TYPE = APP_DRAWER_ITEM_TYPES.link)
          ∧ (∀ d ∈ A, d.TYPE = APP_DRAWER_ITEM_TYPES.link)) := by
  have hlen : (routes S A auth oauth).length
      = ((S ++ A).filter isLink).length := by simp [routes]
  constructor
  · rw [hlen, ← List.length_append]
    exact List.length_filter_le _ _
  · rw [hlen, ← List.length_append, List.filter_length_eq_length]
    constructor
    · intro h
      exact ⟨fun d hd => (isLink_iff d).1 (h d (List.mem_append.2 (Or.inl hd))),
             fun d hd => (isLink_iff d).1 (h d (List.mem_append.2 (Or.inr hd)))⟩
    · rintro ⟨hS, hA⟩ d hd
      rcases List.mem_append.1 hd with h | h
      · exact (isLink_iff d).2 (hS d h)
      · exact (isLink_iff d).2 (hA d h)

/-- C4: for the link item at any position of the filtered page list, the route
at the same position forwards the `isAuthenticated` argument unchanged; when
the item requires login the route is a `PrivateRoute`, for either value of
`isAuthenticated` and of `oauthEnabled`, and when it does not (the flag is
false or absent) the route is a `DefaultLoginRoute`. -/
theorem routes_strategy (S A : List (PageItem C P)) (auth oauth : Bool)
    (i : Nat) (d : PageItem C P) (hd : (linkItems S A)[i]? = some d) :
    ∃ b, (routes S A auth oauth)[i]? = some b
      ∧ b.isAuthenticated = auth
      ∧ (d.REQUIRE_LOGIN = some true → b.element = RouteElement.PrivateRoute)
      ∧ (d.REQUIRE_LOGIN ≠ some true → b.element = RouteElement.DefaultLoginRoute) := by
  refine ⟨toRoute auth oauth d, ?_, rfl, ?_, ?_⟩
  · rw [getElem?_routes, hd]; rfl
  · intro h
    simp [toRoute, truthy, h]
  · intro h
    cases hr : d.REQUIRE_LOGIN with
    | none => simp [toRoute, truthy, hr]
    | some v =>
      cases v with
      | true => exact absurd hr h
      | false => simp [toRoute, truthy, hr]

theorem routes_strategy_witness :
    (linkItems examplePages ([] : List (PageItem String Unit)))[1]?
        = some { NAME := "Admin", TYPE := APP_DRAWER_ITEM_TYPES.link,
                 PATH := some "/admin", REQUIRE_LOGIN := some true,
                 COMPONENT := some "Admin" }
    ∧ ∃ b, (routes examplePages [] false true)[1]? = some b
        ∧ b.isAuthenticated = false
        ∧ ((some true : Option Bool) = some true
            → b.element = RouteElement.PrivateRoute)
        ∧ ((some true : Option Bool) ≠ some true
            → b.element = RouteElement.DefaultLoginRoute) :=
  ⟨rfl, routes_strategy examplePages [] false true 1 _ rfl⟩

/-- C5: for a link item that does not require login, the route at the same
position carries `useDefaultLogin = !oauthEnabled`: true when OAuth is off and
false when it is on, whatever `isAuthenticated` is. -/
theorem routes_useDefaultLogin (S A : List (PageItem C P)) (auth oauth : Bool)
    (i : Nat) (d : PageItem C P) (hd : (linkItems S A)[i]? = some d)
    (hr : d.REQUIRE_LOGIN ≠ some true) :
    ∃ b, (routes S A auth oauth)[i]? = some b
      ∧ b.element = RouteElement.DefaultLoginRoute
      ∧ b.useDefaultLogin = !oauth
      ∧ (oauth = false → b.useDefaultLogin = true)
      ∧ (oauth = true → b.useDefaultLogin = false) := by
  refine ⟨toRoute auth oauth d, ?_, ?_, rfl, ?_, ?_⟩
  · rw [getElem?_routes, hd]; rfl
  · cases hv : d.REQUIRE_LOGIN with
    | none => simp [toRoute, truthy, hv]
    | some v =>
      cases v with
      | true => exact absurd hv hr
      | false => simp [toRoute, truthy, hv]
  · intro h; simp [toRoute, h]
  · intro h; simp [toRoute, h]

theorem routes_useDefaultLogin_witness :
    (linkItems examplePages ([] : List (PageItem String Unit)))[0]?
        = some { NAME := "Home", TYPE := APP_DRAWER_ITEM_TYPES.link,
                 PATH := some "/", REQUIRE_LOGIN := some false,
                 COMPONENT := some "Home" }
    ∧ (some false : Option Bool) ≠ some true
    ∧ ∃ b, (routes examplePages [] true false)[0]? = some b
        ∧ b.element = RouteElement.DefaultLoginRoute
        ∧ b.useDefaultLogin = !false
        ∧ (false = false → b.useDefaultLogin = true)
        ∧ (false = true → b.useDefaultLogin = false) :=
  ⟨rfl, by decide,
   routes_useDefaultLogin examplePages [] true false 0 _ rfl (by decide)⟩

/-- C6: the routes and the link items of the concatenated page list have the
same length, and the route at any position of the output has the name of the
link item at that position as its key, that item's path, component and property
bag, each unchanged, and `exact = true`. -/
theorem routes_fields (S A : List (PageItem C P)) (auth oauth : Bool) :
    (routes S A auth oauth).length = (linkItems S A).length
    ∧ ∀ (i : Nat) (b : RouteBinding C P), (routes S A auth oauth)[i]? = some b →
        ∃ d, (linkItems S A)[i]? = some d
          ∧ b.key = d.NAME ∧ b.path = d.PATH ∧ b.component = d.COMPONENT
          ∧ b.componentProps = d.PROPS ∧ b.exact = true := by
  refine ⟨length_routes S A auth oauth, ?_⟩
  intro i b hb
  rw [getElem?_routes] at hb
  cases hd : (linkItems S A)[i]? with
  | none => rw [hd] at hb; cases hb
  | some d =>
    rw [hd] at hb
    cases hb
    exact ⟨d, rfl, rfl, rfl, rfl, rfl, rfl⟩

theorem routes_fields_witness :
    (routes examplePages [shadowHome] true false)[2]?
        = some (toRoute true false shadowHome)
    ∧ ∃ d, (linkItems examplePages [shadowHome])[2]? = some d
        ∧ (toRoute true false shadowHome).key = d.NAME
        ∧ (toRoute true false shadowHome).path = d.PATH
        ∧ (toRoute true false shadowHome).component = d.COMPONENT
        ∧ (toRoute true false shadowHome).componentProps = d.PROPS
        ∧ (toRoute true false shadowHome).exact = true :=
  ⟨rfl, (routes_fields examplePages [shadowHome] true false).2 2 _ rfl⟩

/-- C7: under a dispatcher that renders the first route whose path equals the
request path, dispatching a path over the resolved routes selects the route of
the first item of the static pages followed by the additional pages whose type
is `link` and whose path is the request path (and nothing when there is none);
when some static item of type `link` has the path, the selection is the route
of the first such static item, itself a static item of type `link` with that
path, whatever the additional pages are. -/
theorem switch_first_match (S A : List (PageItem C P)) (auth oauth : Bool)
    (p : String) :
    Switch p (routes S A auth oauth)
        = ((S ++ A).find? (fun d =>
              decide (d.TYPE = APP_DRAWER_ITEM_TYPES.link) && (d.PATH == some p))).map
            (toRoute auth oauth)
    ∧ ((∃ d0 ∈ S, d0.TYPE = APP_DRAWER_ITEM_TYPES.link ∧ d0.PATH = some p) →
        ∃ d, S.find? (fun d =>
                decide (d.TYPE = APP_DRAWER_ITEM_TYPES.link) && (d.PATH == some p))
              = some d
          ∧ d ∈ S ∧ d.TYPE = APP_DRAWER_ITEM_TYPES.link ∧ d.PATH = some p
          ∧ Switch p (routes S A auth oauth) = some (toRoute auth oauth d)) := by
  have hgen : Switch p (routes S A auth oauth)
      = ((S ++ A).find? (fun d =>
            decide (d.TYPE = APP_DRAWER_ITEM_TYPES.link) && (d.PATH == some p))).map
          (toRoute auth oauth) := by
    unfold Switch routes
    rw [List.find?_map, List.find?_filter]
    congr 2
    funext d
    by_cases hp : d.PATH = some p <;> simp [isLink, toRoute, hp]
  refine ⟨hgen, ?_⟩
  rintro ⟨d0, hd0, hl, hp⟩
  cases hf : S.find? (fun d =>
      decide (d.TYPE = APP_DRAWER_ITEM_TYPES.link) && (d.PATH == some p)) with
  | none =>
    have h := List.find?_eq_none.1 hf d0 hd0
    simp [hl, hp] at h
  | some d =>
    have hd := List.find?_some hf
    simp only [Bool.and_eq_true, decide_eq_true_eq, beq_iff_eq] at hd
    refine ⟨d, rfl, List.mem_of_find?_eq_some hf, hd.1, hd.2, ?_⟩
    rw [hgen, List.find?_append, hf]
    rfl

theorem switch_first_match_witness :
    (∃ d0 ∈ collidingPages,
        d0.TYPE = APP_DRAWER_ITEM_TYPES.link ∧ d0.PATH = some "/")
    ∧ Switch "/" (routes collidingPages [shadowHome] false true)
        = some { element := RouteElement.DefaultLoginRoute, key := "Home",
                 path := some "/", exact := true, component := some "Home",
                 isAuthenticated := false, useDefaultLogin := false,
                 componentProps := none }
    ∧ ∃ d, collidingPages.find? (fun d =>
              decide (d.TYPE = APP_DRAWER_ITEM_TYPES.link) && (d.PATH == some "/"))
            = some d
        ∧ d ∈ collidingPages ∧ d.TYPE = APP_DRAWER_ITEM_TYPES.link
        ∧ d.PATH = some "/"
        ∧ Switch "/" (routes collidingPages [shadowHome] false true)
            = some (toRoute false true d) :=
  ⟨⟨_, List.mem_cons_of_mem _ (List.mem_cons_self _ _), rfl, rfl⟩, by decide,
   (switch_first_match collidingPages [shadowHome] false true "/").2
     ⟨_, List.mem_cons_of_mem _ (List.mem_cons_self _ _), rfl, rfl⟩⟩

/-- C8: on the worked example (static pages `Home`, `Admin` and a divider, no
additional pages, not authenticated, OAuth enabled) the resolver returns
exactly two routes: `Home` at "/" as a `DefaultLoginRoute` with
`useDefaultLogin = false`, then `Admin` at "/admin" as a `PrivateRoute` with
`isAuthenticated = false`; the divider yields no route. -/
theorem routes_example :
    routes examplePages [] false true
      = [ { element := RouteElement.DefaultLoginRoute, key := "Home",
            path := some "/", exact := true, component := some "Home",
            isAuthenticated := false, useDefaultLogin := false,
            componentProps := none },
          { element := RouteElement.PrivateRoute, key := "Admin",
            path := some "/admin", exact := true, component := some "Admin",
            isAuthenticated := false, useDefaultLogin := false,
            componentProps := none } ] := by
  decide

/-- C9: the route list a render of the component hands to the dispatcher is
the function `routes` of four values only (the static pages, the additional
pages, `isAuthenticated` and the flag `oauthEnabled` of the container), and a
render leaves the ambient state as it found it.  Hence two renders that agree
on these four values, whatever else differs in the container or in the props,
and in particular a render repeated after another one, yield lists of the same
length that agree at every position in key, path, `exact`, element type,
`isAuthenticated`, `useDefaultLogin` and property bag. -/
theorem render_routes_deterministic {G : Type} (w w' : Ambient C P G)
    (props props' : Props C P)
    (hpages : w.APP_PAGES = w'.APP_PAGES)
    (hadd : props.additionalPages = props'.additionalPages)
    (hauth : props.isAuthenticated = props'.isAuthenticated)
    (hoauth : w.container.oauthEnabled = w'.container.oauthEnabled) :
    (render w props).1.switchChildren
        = routes w.APP_PAGES props.additionalPages props.isAuthenticated
            w.container.oauthEnabled
    ∧ (render w props).2 = w
    ∧ (render (render w props).2 props).1.switchChildren
        = (render w props).1.switchChildren
    ∧ (render w props).1.switchChildren.length
        = (render w' props').1.switchChildren.length
    ∧ ∀ i : Nat,
        ((render w props).1.switchChildren[i]?).map
            (fun b => (b.key, b.path, b.exact, b.element, b.isAuthenticated,
                       b.useDefaultLogin, b.componentProps))
          = ((render w' props').1.switchChildren[i]?).map
            (fun b => (b.key, b.path, b.exact, b.element, b.isAuthenticated,
                       b.useDefaultLogin, b.componentProps)) := by
  have h : (render w props).1.switchChildren
      = (render w' props').1.switchChildren := by
    simp only [render]
    rw [hpages, hadd, hauth, hoauth]
  refine ⟨rfl, rfl, rfl, ?_, ?_⟩
  · rw [h]
  · intro i
    rw [h]

theorem render_routes_deterministic_witness :
    (exampleAmbient ≠ otherAmbient
      ∧ ({ additionalPages := [shadowHome], className := "wide",
           isAuthenticated := false } : Props String Unit)
          ≠ { additionalPages := [shadowHome], isAuthenticated := false })
    ∧ (render exampleAmbient
          { additionalPages := [shadowHome], className := "wide",
            isAuthenticated := false }).1.switchChildren
        = routes exampleAmbient.APP_PAGES [shadowHome] false true
    ∧ (render exampleAmbient
          { additionalPages := [shadowHome], className := "wide",
            isAuthenticated := false }).2 = exampleAmbient
    ∧ (render (render exampleAmbient
          { additionalPages := [shadowHome], className := "wide",
            isAuthenticated := false }).2
          { additionalPages := [shadowHome], className := "wide",
            isAuthenticated := false }).1.switchChildren
        = (render exampleAmbient
            { additionalPages := [shadowHome], className := "wide",
              isAuthenticated := false }).1.switchChildren
    ∧ (render exampleAmbient
          { additionalPages := [shadowHome], className := "wide",
            isAuthenticated := false }).1.switchChildren.length
        = (render otherAmbient
            { additionalPages := [shadowHome],
              isAuthenticated := false }).1.switchChildren.length
    ∧ ∀ i : Nat,
        ((render exampleAmbient
            { additionalPages := [shadowHome], className := "wide",
              isAuthenticated := false }).1.switchChildren[i]?).map
            (fun b => (b.key, b.path, b.exact, b.element, b.isAuthenticated,
                       b.useDefaultLogin, b.componentProps))
          = ((render otherAmbient
              { additionalPages := [shadowHome],
                isAuthenticated := false }).1.switchChildren[i]?).map
            (fun b => (b.key, b.path, b.exact, b.element, b.isAuthenticated,
                       b.useDefaultLogin, b.componentProps)) :=
  ⟨⟨by decide, by decide⟩,
   render_routes_deterministic exampleAmbient otherAmbient
     { additionalPages := [shadowHome], className := "wide",
       isAuthenticated := false }
     { additionalPages := [shadowHome], isAuthenticated := false }
     rfl rfl rfl rfl⟩

/-- C10: when the names of the link items of the static pages followed by the
additional pages are pairwise distinct, so are the keys of the resolved routes;
and two link items at different positions that share a name yield two routes,
at the same two positions of the output, that share their key: nothing is
deduplicated. -/
theorem routes_keys_nodup (S A : List (PageItem C P)) (auth oauth : Bool) :
    (((linkItems S A).map (fun d => d.NAME)).Nodup →
        ((routes S A auth oauth).map (fun b => b.key)).Nodup)
    ∧ ∀ (i j : Nat) (di dj : PageItem C P), i < j →
        (linkItems S A)[i]? = some di → (linkItems S A)[j]? = some dj →
        di.NAME = dj.NAME →
        ∃ bi bj, (routes S A auth oauth)[i]? = some bi
          ∧ (routes S A auth oauth)[j]? = some bj
          ∧ bi.key = bj.key ∧ bi.key = di.NAME := by
  constructor
  · intro h
    rw [keys_routes]
    exact h
  · intro i j di dj _ hi hj hn
    refine ⟨toRoute auth oauth di, toRoute auth oauth dj, ?_, ?_, hn, rfl⟩
    · rw [getElem?_routes, hi]; rfl
    · rw [getElem?_routes, hj]; rfl

theorem routes_keys_nodup_witness :
    (((linkItems examplePages ([] : List (PageItem String Unit))).map
        (fun d => d.NAME)).Nodup
      ∧ ((routes examplePages [] false true).map (fun b => b.key)).Nodup)
    ∧ (linkItems examplePages [shadowHome])[0]? = some
        { NAME := "Home", TYPE := APP_DRAWER_ITEM_TYPES.link, PATH := some "/",
          REQUIRE_LOGIN := some false, COMPONENT := some "Home" }
    ∧ (linkItems examplePages [shadowHome])[2]? = some shadowHome
    ∧ ∃ bi bj, (routes examplePages [shadowHome] false true)[0]? = some bi
        ∧ (routes examplePages [shadowHome] false true)[2]? = some bj
        ∧ bi.key = bj.key ∧ bi.key = "Home" :=
  ⟨⟨by decide, (routes_keys_nodup examplePages [] false true).1 (by decide)⟩,
   rfl, rfl,
   (routes_keys_nodup examplePages [shadowHome] false true).2 0 2 _ _
     (by decide) rfl rfl rfl⟩

end ContentContainer
